import Mathlib

/-!
Verification development for the crux-vision overlay pipeline
(backend/src/pipeline/overlay.py and backend/src/pipeline/motion_tracer.py).

Python floats are embedded as rationals (all constants in the source are
exactly representable), Python ints as integers, Python dicts holding
landmark records as structures with optional fields (a missing key raises
KeyError, modelled with Except), and OpenCV images as their shape together
with the list of drawing primitives issued against them.
-/

/-- Python exception kinds that the embedded code can raise. -/
inductive PyErr where
  | keyError : PyErr
  | zeroDivision : PyErr
  | generic : PyErr
deriving DecidableEq

/-- Python int(q) on a float value: truncation toward zero. -/
def pytrunc (q : ℚ) : ℤ := if q < 0 then ⌈q⌉ else ⌊q⌋

/-- Rounding to the nearest whole number, as the specification words
(rounded to the nearest whole number of frames) describe; used only to
state the specification side of claim C3. -/
def roundNearest (q : ℚ) : ℤ := ⌊q + 1/2⌋

theorem pytrunc_eq_floor {q : ℚ} (hq : 0 ≤ q) : pytrunc q = ⌊q⌋ := by
  rw [pytrunc, if_neg (not_lt.mpr hq)]

/-! ## MotionTracer (backend/src/pipeline/motion_tracer.py) -/

/-- State of motion_tracer.MotionTracer: fps and persistence_seconds as
given to __init__, max_age_frames as computed there, and the
position_history list of (x, y, frame_index) entries. -/
structure MotionTracer where
  fps : ℚ
  persistenceSeconds : ℚ
  maxAgeFrames : ℤ
  positionHistory : List (ℚ × ℚ × ℤ)
deriving DecidableEq

/-- MotionTracer.__init__: max_age_frames = int(fps * persistence_seconds)
and an empty history. -/
def MotionTracer.init (fps : ℚ) (persistenceSeconds : ℚ) : MotionTracer :=
  { fps := fps
    persistenceSeconds := persistenceSeconds
    maxAgeFrames := pytrunc (fps * persistenceSeconds)
    positionHistory := [] }

/-- MotionTracer.add_position: append (x, y, frame_index), then keep only
entries whose age relative to frame_index is at most max_age_frames. -/
def MotionTracer.addPosition (t : MotionTracer) (x y : ℚ) (frameIndex : ℤ) :
    MotionTracer :=
  let appended := t.positionHistory ++ [(x, y, frameIndex)]
  { t with positionHistory :=
      appended.filter fun p => frameIndex - p.2.2 ≤ t.maxAgeFrames }

/-- MotionTracer.get_active_trail: the entries whose age relative to the
given current frame index is at most max_age_frames. -/
def MotionTracer.getActiveTrail (t : MotionTracer) (currentFrameIndex : ℤ) :
    List (ℚ × ℚ × ℤ) :=
  t.positionHistory.filter fun p => currentFrameIndex - p.2.2 ≤ t.maxAgeFrames

/-- MotionTracer.get_fade_opacity: 0.0 once frame_age reaches
max_age_frames, otherwise max(0, 1 - frame_age / max_age_frames); the
division raises ZeroDivisionError when max_age_frames is 0 and the first
branch was not taken (possible only for a negative frame_age). -/
def MotionTracer.getFadeOpacity (t : MotionTracer) (frameAge : ℤ) :
    Except PyErr ℚ :=
  if t.maxAgeFrames ≤ frameAge then .ok 0
  else if t.maxAgeFrames = 0 then .error .zeroDivision
  else .ok (max 0 (1 - (frameAge : ℚ) / (t.maxAgeFrames : ℚ)))

/-- MotionTracer.get_current_anchor_position: last history entry, if any. -/
def MotionTracer.getCurrentAnchorPosition (t : MotionTracer) : Option (ℚ × ℚ) :=
  match t.positionHistory.getLast? with
  | some p => some (p.1, p.2.1)
  | none => none

/-! ## Claim C3: the persistence window -/

/-- C3 counterexample: at fps = 29/10 and persistenceSeconds = 1 the code
computes max_age_frames = int(2.9) = 2, while the claimed
round(fps x persistenceSeconds) is 3, so the claim as stated is false. -/
theorem c3_counterexample :
    (MotionTracer.init (29/10) 1).maxAgeFrames = 2 ∧
      roundNearest ((29/10 : ℚ) * 1) = 3 ∧
      (MotionTracer.init (29/10) 1).maxAgeFrames ≠ roundNearest ((29/10 : ℚ) * 1) := by
  norm_num [MotionTracer.init, pytrunc, roundNearest]

/-- C3 amended: for nonnegative fps and persistenceSeconds (the only values
that occur), maxAgeFrames equals fps x persistenceSeconds truncated toward
zero, that is, its floor — not its rounding to the nearest integer. -/
theorem c3_amended (fps persistenceSeconds : ℚ)
    (hfps : 0 ≤ fps) (hp : 0 ≤ persistenceSeconds) :
    (MotionTracer.init fps persistenceSeconds).maxAgeFrames =
      ⌊fps * persistenceSeconds⌋ := by
  exact pytrunc_eq_floor (mul_nonneg hfps hp)

theorem c3_amended_witness :
    (MotionTracer.init (29/10) 1).maxAgeFrames = ⌊(29/10 : ℚ) * 1⌋ :=
  c3_amended (29/10) 1 (by norm_num) (by norm_num)

/-! ## Claims C5 and C10: fade opacity -/

theorem getFadeOpacity_formula (t : MotionTracer) (hmax : 1 ≤ t.maxAgeFrames)
    (age : ℤ) (_hage : 0 ≤ age) :
    t.getFadeOpacity age = .ok (max 0 (1 - (age : ℚ) / (t.maxAgeFrames : ℚ))) := by
  have hmaxQ : (0 : ℚ) < (t.maxAgeFrames : ℚ) := by exact_mod_cast hmax
  rw [MotionTracer.getFadeOpacity]
  by_cases hbr : t.maxAgeFrames ≤ age
  · have h1 : (t.maxAgeFrames : ℚ) ≤ (age : ℚ) := by exact_mod_cast hbr
    have h2 : (1 : ℚ) ≤ (age : ℚ) / (t.maxAgeFrames : ℚ) :=
      (one_le_div hmaxQ).mpr h1
    have h3 : (1 : ℚ) - (age : ℚ) / (t.maxAgeFrames : ℚ) ≤ 0 := by linarith
    simp [hbr, max_eq_left h3]
  · have hne : t.maxAgeFrames ≠ 0 := by omega
    simp [hbr, hne]

/-- C5 amended: for every MotionTracer whose maxAgeFrames is at least 1,
fadeOpacity(0) = 1, fadeOpacity(maxAgeFrames) = 0, fadeOpacity(age) =
max(0, 1 - age/maxAgeFrames) for every nonnegative age, and the opacity is
non-increasing in age. (The unrestricted claim fails when maxAgeFrames
truncates to 0; see the counterexample.) -/
theorem c5_amended (t : MotionTracer) (hmax : 1 ≤ t.maxAgeFrames) :
    t.getFadeOpacity 0 = .ok 1 ∧
    t.getFadeOpacity t.maxAgeFrames = .ok 0 ∧
    (∀ age : ℤ, 0 ≤ age →
      t.getFadeOpacity age = .ok (max 0 (1 - (age : ℚ) / (t.maxAgeFrames : ℚ)))) ∧
    (∀ a b : ℤ, 0 ≤ a → a ≤ b → ∀ oa ob : ℚ,
      t.getFadeOpacity a = .ok oa → t.getFadeOpacity b = .ok ob → ob ≤ oa) := by
  have hmaxQ : (0 : ℚ) < (t.maxAgeFrames : ℚ) := by exact_mod_cast hmax
  refine ⟨?_, ?_, ?_, ?_⟩
  · rw [getFadeOpacity_formula t hmax 0 le_rfl]
    norm_num
  · rw [MotionTracer.getFadeOpacity, if_pos le_rfl]
  · exact getFadeOpacity_formula t hmax
  · intro a b ha hab oa ob hoa hob
    have hb : 0 ≤ b := le_trans ha hab
    rw [getFadeOpacity_formula t hmax a ha] at hoa
    rw [getFadeOpacity_formula t hmax b hb] at hob
    have hoa' : oa = max 0 (1 - (a : ℚ) / (t.maxAgeFrames : ℚ)) :=
      (Except.ok.inj hoa).symm
    have hob' : ob = max 0 (1 - (b : ℚ) / (t.maxAgeFrames : ℚ)) :=
      (Except.ok.inj hob).symm
    have hdiv : (a : ℚ) / (t.maxAgeFrames : ℚ) ≤ (b : ℚ) / (t.maxAgeFrames : ℚ) :=
      div_le_div_of_nonneg_right (by exact_mod_cast hab) hmaxQ.le
    rw [hoa', hob']
    exact max_le_max le_rfl (by linarith)

theorem c5_amended_witness :
    (MotionTracer.init 30 2).getFadeOpacity 0 = .ok 1 ∧
      (MotionTracer.init 30 2).getFadeOpacity
        (MotionTracer.init 30 2).maxAgeFrames = .ok 0 :=
  ⟨(c5_amended (MotionTracer.init 30 2)
      (by norm_num [MotionTracer.init, pytrunc])).1,
   (c5_amended (MotionTracer.init 30 2)
      (by norm_num [MotionTracer.init, pytrunc])).2.1⟩

/-- C5 counterexample: the tracer built from fps = 1/2 and
persistenceSeconds = 1 has maxAgeFrames = int(0.5) = 0, and there
fadeOpacity(0) evaluates to 0, not the claimed 1. -/
theorem c5_counterexample :
    (MotionTracer.init (1/2) 1).maxAgeFrames = 0 ∧
      (MotionTracer.init (1/2) 1).getFadeOpacity 0 = .ok 0 ∧
      (MotionTracer.init (1/2) 1).getFadeOpacity 0 ≠ .ok 1 := by
  have hmax : (MotionTracer.init (1/2) 1).maxAgeFrames = 0 := by
    norm_num [MotionTracer.init, pytrunc]
  have hfade : (MotionTracer.init (1/2) 1).getFadeOpacity 0 = .ok 0 := by
    rw [MotionTracer.getFadeOpacity, if_pos (le_of_eq hmax)]
  refine ⟨hmax, hfade, ?_⟩
  rw [hfade]
  intro h
  exact absurd (Except.ok.inj h) (by norm_num)

/-- C10: when maxAgeFrames = 0, every call of fadeOpacity at a nonnegative
frame age takes the early branch (age >= maxAgeFrames), so no division by
zero occurs and 0.0 is returned; in particular fadeOpacity(0) = 0, not 1. -/
theorem c10_fade_opacity_total_at_zero_window (t : MotionTracer)
    (hmax : t.maxAgeFrames = 0) :
    (∀ age : ℤ, 0 ≤ age → t.getFadeOpacity age = .ok 0) ∧
      t.getFadeOpacity 0 = .ok 0 ∧ t.getFadeOpacity 0 ≠ .ok 1 := by
  have h0 : ∀ age : ℤ, 0 ≤ age → t.getFadeOpacity age = .ok 0 := by
    intro age hage
    rw [MotionTracer.getFadeOpacity, if_pos (hmax ▸ hage)]
  refine ⟨h0, h0 0 le_rfl, ?_⟩
  rw [h0 0 le_rfl]
  intro h
  exact absurd (Except.ok.inj h) (by norm_num)

theorem c10_witness :
    (MotionTracer.init (1/4) 2).getFadeOpacity 0 = .ok 0 :=
  (c10_fade_opacity_total_at_zero_window (MotionTracer.init (1/4) 2)
    (by norm_num [MotionTracer.init, pytrunc])).2.1

/-! ## Landmark records and skeleton rendering (backend/src/pipeline/overlay.py) -/

/-- Landmark record as read from the pose-data JSON: the values of the
keys x, y and visibility, each possibly missing (access via [] raises
KeyError on a missing key, access via .get substitutes a default). -/
structure LandmarkJson where
  x : Option ℚ
  y : Option ℚ
  visibility : Option ℚ
deriving DecidableEq

/-- Image shape: the (height, width) prefix of an OpenCV shape tuple. -/
structure Shape where
  height : ℕ
  width : ℕ
deriving DecidableEq

/-- POSE_CONNECTIONS: the fixed curated connection list of overlay.py. -/
def POSE_CONNECTIONS : List (ℕ × ℕ) :=
  [(0, 11), (0, 12),
   (11, 12), (11, 13), (12, 14), (13, 15), (14, 16),
   (11, 23), (12, 24),
   (23, 24), (23, 25), (24, 26), (25, 27), (26, 28),
   (27, 29), (28, 30), (29, 31), (30, 32),
   (15, 17), (17, 19), (19, 21), (21, 15),
   (16, 18), (18, 20), (20, 22), (22, 16)]

/-- get_landmark_coords: None when the index is beyond the landmark list,
otherwise int-truncated pixel coordinates, None when out of bounds;
KeyError when the landmark record lacks the x or y key. -/
def getLandmarkCoords (landmarks : List LandmarkJson) (landmarkIndex : ℕ)
    (shape : Shape) : Except PyErr (Option (ℤ × ℤ)) :=
  if landmarks.length ≤ landmarkIndex then .ok none
  else
    match landmarks[landmarkIndex]? with
    | none => .ok none
    | some lm =>
      match lm.x, lm.y with
      | some xn, some yn =>
        let x := pytrunc (xn * shape.width)
        let y := pytrunc (yn * shape.height)
        if 0 ≤ x ∧ x < shape.width ∧ 0 ≤ y ∧ y < shape.height then
          .ok (some (x, y))
        else .ok none
      | _, _ => .error .keyError

/-- Total version of get_landmark_coords for landmark records that have
both coordinate keys; it never reads the visibility field. -/
def coordsNoErr (landmarks : List LandmarkJson) (landmarkIndex : ℕ)
    (shape : Shape) : Option (ℤ × ℤ) :=
  match landmarks[landmarkIndex]? with
  | none => none
  | some lm =>
    let x := pytrunc ((lm.x.getD 0) * shape.width)
    let y := pytrunc ((lm.y.getD 0) * shape.height)
    if 0 ≤ x ∧ x < shape.width ∧ 0 ≤ y ∧ y < shape.height then some (x, y)
    else none

/-- Well-formedness of landmark records: both coordinate keys present, so
that coordinate lookups cannot raise KeyError. -/
def wfLandmarks (landmarks : List LandmarkJson) : Bool :=
  landmarks.all fun lm => lm.x.isSome && lm.y.isSome

theorem getLandmarkCoords_eq_coordsNoErr (landmarks : List LandmarkJson)
    (shape : Shape) (hwf : wfLandmarks landmarks = true) (i : ℕ) :
    getLandmarkCoords landmarks i shape = .ok (coordsNoErr landmarks i shape) := by
  simp only [wfLandmarks] at hwf
  rw [getLandmarkCoords, coordsNoErr]
  by_cases hlen : landmarks.length ≤ i
  · rw [if_pos hlen, List.getElem?_eq_none hlen]
  · rw [if_neg hlen]
    have hi : i < landmarks.length := lt_of_not_le hlen
    have hlm : landmarks[i]? = some landmarks[i] := List.getElem?_eq_getElem hi
    have hmem : landmarks[i] ∈ landmarks := List.getElem_mem hi
    have hall := List.all_eq_true.mp hwf _ hmem
    simp only [Bool.and_eq_true] at hall
    obtain ⟨xv, hxv⟩ := Option.isSome_iff_exists.mp hall.1
    obtain ⟨yv, hyv⟩ := Option.isSome_iff_exists.mp hall.2
    simp only [hlm, hxv, hyv, Option.getD_some]
    split <;> rfl

/-- draw_skeleton_connections, one connection at a time: for each pair,
look up both endpoints (KeyError propagates) and draw the segment when
both are available; the image is abstracted as the ordered list of drawn
segments (color and thickness are per-run constants carrying no
per-connection information). -/
def drawConnectionsGo (landmarks : List LandmarkJson) (shape : Shape) :
    List (ℕ × ℕ) → Except PyErr (List ((ℤ × ℤ) × (ℤ × ℤ)))
  | [] => .ok []
  | c :: rest =>
    match getLandmarkCoords landmarks c.1 shape with
    | .error e => .error e
    | .ok p1 =>
      match getLandmarkCoords landmarks c.2 shape with
      | .error e => .error e
      | .ok p2 =>
        match drawConnectionsGo landmarks shape rest with
        | .error e => .error e
        | .ok segs =>
          match p1, p2 with
          | some a, some b => .ok ((a, b) :: segs)
          | _, _ => .ok segs

/-- draw_skeleton_connections over the fixed POSE_CONNECTIONS list. -/
def drawSkeletonConnections (landmarks : List LandmarkJson) (shape : Shape) :
    Except PyErr (List ((ℤ × ℤ) × (ℤ × ℤ))) :=
  drawConnectionsGo landmarks shape POSE_CONNECTIONS

/-- Visibility of the landmark at an index, with the .get default 0.0. -/
def visibilityAt (landmarks : List LandmarkJson) (i : ℕ) : ℚ :=
  match landmarks[i]? with
  | some lm => lm.visibility.getD 0
  | none => 0

/-- Connection-drawing rule exactly as claim C1 words it: a segment is
drawn iff both endpoints resolve to in-bounds pixels and both endpoint
visibilities meet the confidence threshold. Stated from the claim, for
comparison against the code. -/
def specDrawnConnections (threshold : ℚ) (landmarks : List LandmarkJson)
    (shape : Shape) : List ((ℤ × ℤ) × (ℤ × ℤ)) :=
  POSE_CONNECTIONS.filterMap fun c =>
    match coordsNoErr landmarks c.1 shape, coordsNoErr landmarks c.2 shape with
    | some a, some b =>
      if threshold ≤ visibilityAt landmarks c.1 ∧
          threshold ≤ visibilityAt landmarks c.2 then some (a, b) else none
    | _, _ => none

/-- Connection-drawing rule actually implemented: a segment is drawn iff
both endpoints resolve to in-bounds pixels; visibility is never read. -/
def boundsDrawnConnections (landmarks : List LandmarkJson) (shape : Shape) :
    List ((ℤ × ℤ) × (ℤ × ℤ)) :=
  POSE_CONNECTIONS.filterMap fun c =>
    match coordsNoErr landmarks c.1 shape, coordsNoErr landmarks c.2 shape with
    | some a, some b => some (a, b)
    | _, _ => none

theorem drawConnectionsGo_eq_filterMap (landmarks : List LandmarkJson)
    (shape : Shape) (hwf : wfLandmarks landmarks = true) (cs : List (ℕ × ℕ)) :
    drawConnectionsGo landmarks shape cs = .ok (cs.filterMap fun c =>
      match coordsNoErr landmarks c.1 shape, coordsNoErr landmarks c.2 shape with
      | some a, some b => some (a, b)
      | _, _ => none) := by
  induction cs with
  | nil => rfl
  | cons c rest ih =>
    simp only [drawConnectionsGo,
      getLandmarkCoords_eq_coordsNoErr landmarks shape hwf, ih,
      List.filterMap_cons]
    cases h1 : coordsNoErr landmarks c.1 shape <;>
      cases h2 : coordsNoErr landmarks c.2 shape <;> rfl

/-! ## Claim C1: connection drawing is not confidence-gated -/

/-- C1 amended: draw_skeleton_connections draws a segment iff both
endpoint landmarks resolve to in-bounds pixel coordinates; the endpoint
visibilities are never consulted (boundsDrawnConnections reads only the
coordinate keys). -/
theorem c1_connection_drawn_iff_in_bounds (landmarks : List LandmarkJson)
    (shape : Shape) (hwf : wfLandmarks landmarks = true) :
    drawSkeletonConnections landmarks shape =
      .ok (boundsDrawnConnections landmarks shape) :=
  drawConnectionsGo_eq_filterMap landmarks shape hwf POSE_CONNECTIONS

/-- Landmark record sitting at the frame center with zero visibility. -/
def lmCenter : LandmarkJson := ⟨some (1/2), some (1/2), some 0⟩

/-- Twelve center landmarks: exactly the indices 0..11 exist, so of the
fixed connection list only the pair (0, 11) has both endpoints present. -/
def cexLandmarks : List LandmarkJson := List.replicate 12 lmCenter

def cexShape : Shape := ⟨100, 100⟩

theorem c1_witness :
    drawSkeletonConnections cexLandmarks cexShape =
      .ok (boundsDrawnConnections cexLandmarks cexShape) :=
  c1_connection_drawn_iff_in_bounds cexLandmarks cexShape (by decide)

/-- C1 counterexample: every landmark has visibility 0, below the
threshold 1/2, so the claimed confidence-gated rule draws nothing; the
code still draws the segment for connection (0, 11). -/
theorem c1_counterexample :
    drawSkeletonConnections cexLandmarks cexShape =
        .ok [((50, 50), (50, 50))] ∧
      specDrawnConnections (1/2) cexLandmarks cexShape = [] := by
  have hco : ∀ i : ℕ, i < 12 →
      coordsNoErr cexLandmarks i cexShape = some (50, 50) := by
    intro i hi
    simp only [coordsNoErr, cexLandmarks, cexShape, List.getElem?_replicate,
      if_pos hi, lmCenter]
    norm_num [pytrunc]
  have hnone : ∀ i : ℕ, 12 ≤ i →
      coordsNoErr cexLandmarks i cexShape = none := by
    intro i hi
    simp only [coordsNoErr, cexLandmarks, cexShape, List.getElem?_replicate]
    rw [if_neg (by omega)]
  have hvis : ∀ i : ℕ, visibilityAt cexLandmarks i = 0 := by
    intro i
    simp only [visibilityAt, cexLandmarks, List.getElem?_replicate]
    by_cases hi : i < 12
    · rw [if_pos hi]
      rfl
    · rw [if_neg hi]
  constructor
  · rw [c1_connection_drawn_iff_in_bounds cexLandmarks cexShape (by decide)]
    simp only [boundsDrawnConnections, POSE_CONNECTIONS, List.filterMap_cons,
      List.filterMap_nil, hco 0 (by norm_num), hco 11 (by norm_num),
      hnone 12 (by norm_num), hnone 13 (by norm_num), hnone 14 (by norm_num),
      hnone 15 (by norm_num), hnone 16 (by norm_num), hnone 17 (by norm_num),
      hnone 18 (by norm_num), hnone 19 (by norm_num), hnone 20 (by norm_num),
      hnone 21 (by norm_num), hnone 22 (by norm_num), hnone 23 (by norm_num),
      hnone 24 (by norm_num), hnone 25 (by norm_num), hnone 26 (by norm_num),
      hnone 27 (by norm_num), hnone 28 (by norm_num), hnone 29 (by norm_num),
      hnone 30 (by norm_num), hnone 31 (by norm_num), hnone 32 (by norm_num)]
  · simp only [specDrawnConnections, POSE_CONNECTIONS, List.filterMap_cons,
      List.filterMap_nil, hco 0 (by norm_num), hco 11 (by norm_num),
      hnone 12 (by norm_num), hnone 13 (by norm_num), hnone 14 (by norm_num),
      hnone 15 (by norm_num), hnone 16 (by norm_num), hnone 17 (by norm_num),
      hnone 18 (by norm_num), hnone 19 (by norm_num), hnone 20 (by norm_num),
      hnone 21 (by norm_num), hnone 22 (by norm_num), hnone 23 (by norm_num),
      hnone 24 (by norm_num), hnone 25 (by norm_num), hnone 26 (by norm_num),
      hnone 27 (by norm_num), hnone 28 (by norm_num), hnone 29 (by norm_num),
      hnone 30 (by norm_num), hnone 31 (by norm_num), hnone 32 (by norm_num),
      hvis]
    norm_num

/-! ## Claim C6: rotation compensation and its inverse -/

/-- Pixel-space remap applied by rotate_landmark_coordinates: 90 degrees
maps (x, y) to (H - y, x), 180 to (W - x, H - y), 270 to (y, W - x),
where W and H are the pre-rotation pixel dimensions; any other angle
leaves the point unchanged. -/
def rotatePointPx (rotation : ℤ) (origShape : Shape) (xp yp : ℚ) : ℚ × ℚ :=
  if rotation = 90 then ((origShape.height : ℚ) - yp, xp)
  else if rotation = 180 then
    ((origShape.width : ℚ) - xp, (origShape.height : ℚ) - yp)
  else if rotation = 270 then (yp, (origShape.width : ℚ) - xp)
  else (xp, yp)

/-- Per-landmark transform of rotate_landmark_coordinates: scale the
normalized coordinates to pre-rotation pixels, remap, and re-normalize
against the rotated dimensions; the copied record keeps every other
field. -/
def rotMapLm (rotation : ℤ) (origShape rotShape : Shape)
    (lm : LandmarkJson) : LandmarkJson :=
  let p := rotatePointPx rotation origShape
    ((lm.x.getD 0) * (origShape.width : ℚ))
    ((lm.y.getD 0) * (origShape.height : ℚ))
  { lm with
      x := some (p.1 / (rotShape.width : ℚ))
      y := some (p.2 / (rotShape.height : ℚ)) }

/-- Loop of rotate_landmark_coordinates: transform each record in order;
a record missing the x or y key raises KeyError, which propagates. -/
def rotateLandmarksGo (rotation : ℤ) (origShape rotShape : Shape) :
    List LandmarkJson → Except PyErr (List LandmarkJson)
  | [] => .ok []
  | lm :: rest =>
    match lm.x, lm.y with
    | some _, some _ =>
      match rotateLandmarksGo rotation origShape rotShape rest with
      | .error e => .error e
      | .ok rest2 => .ok (rotMapLm rotation origShape rotShape lm :: rest2)
    | _, _ => .error .keyError

/-- rotate_landmark_coordinates: the identity at rotation 0, otherwise
the per-landmark remap over the whole list. -/
def rotateLandmarkCoordinates (landmarks : List LandmarkJson) (rotation : ℤ)
    (origShape rotShape : Shape) : Except PyErr (List LandmarkJson) :=
  if rotation = 0 then .ok landmarks
  else rotateLandmarksGo rotation origShape rotShape landmarks

/-- Shape of a decoded frame after the compositor's cv2.rotate call:
height and width swap exactly for rotations 90 and 270. -/
def frameShape (origShape : Shape) (rotation : ℤ) : Shape :=
  if rotation = 90 ∨ rotation = 270 then ⟨origShape.width, origShape.height⟩
  else origShape

/-- Inverse rotation angle: compensating for the inverse rotation undoes
the compensation for the rotation. -/
def invRotation (rotation : ℤ) : ℤ :=
  if rotation = 90 then 270 else if rotation = 270 then 90 else rotation

theorem wfLandmarks_iff (landmarks : List LandmarkJson) :
    wfLandmarks landmarks = true ↔
      ∀ lm ∈ landmarks, lm.x.isSome = true ∧ lm.y.isSome = true := by
  simp [wfLandmarks, List.all_eq_true, Bool.and_eq_true]

theorem rotateLandmarksGo_eq_map (rotation : ℤ) (origShape rotShape : Shape)
    (landmarks : List LandmarkJson)
    (hwf : ∀ lm ∈ landmarks, lm.x.isSome = true ∧ lm.y.isSome = true) :
    rotateLandmarksGo rotation origShape rotShape landmarks =
      .ok (landmarks.map (rotMapLm rotation origShape rotShape)) := by
  induction landmarks with
  | nil => rfl
  | cons lm rest ih =>
    have hlm := hwf lm (List.mem_cons_self lm rest)
    obtain ⟨xv, hxv⟩ := Option.isSome_iff_exists.mp hlm.1
    obtain ⟨yv, hyv⟩ := Option.isSome_iff_exists.mp hlm.2
    have ih2 := ih fun lm2 hlm2 => hwf lm2 (List.mem_cons_of_mem lm hlm2)
    simp only [rotateLandmarksGo, hxv, hyv, ih2, List.map_cons]

theorem rotMapLm_inv (rotation : ℤ)
    (hrot : rotation = 90 ∨ rotation = 180 ∨ rotation = 270) (H W : ℕ)
    (hH : 0 < H) (hW : 0 < W) (lm : LandmarkJson)
    (hx : lm.x.isSome = true) (hy : lm.y.isSome = true) :
    rotMapLm (invRotation rotation) (frameShape ⟨H, W⟩ rotation) ⟨H, W⟩
      (rotMapLm rotation ⟨H, W⟩ (frameShape ⟨H, W⟩ rotation) lm) = lm := by
  have hHQ : ((H : ℚ)) ≠ 0 := Nat.cast_ne_zero.mpr hH.ne'
  have hWQ : ((W : ℚ)) ≠ 0 := Nat.cast_ne_zero.mpr hW.ne'
  obtain ⟨xv, hxv⟩ := Option.isSome_iff_exists.mp hx
  obtain ⟨yv, hyv⟩ := Option.isSome_iff_exists.mp hy
  cases lm with
  | mk lx ly lvis =>
    simp only at hxv hyv
    subst hxv hyv
    rcases hrot with h | h | h <;> subst h <;>
      simp only [rotMapLm, rotatePointPx, invRotation, frameShape,
        Option.getD_some, LandmarkJson.mk.injEq, and_true, true_and] <;>
      norm_num
    all_goals (constructor <;> (field_simp; try ring))

/-- C6: for every rotation in {0, 90, 180, 270} and every landmark list
with both coordinate keys, compensating coordinates for the rotation
(against the swapped post-rotation dimensions) and then compensating for
the inverse rotation restores the original records exactly (the rational
embedding has no rounding, so exact recovery is within any rounding
tolerance). -/
theorem c6_rotation_compensation_roundtrip (rotation : ℤ)
    (hrot : rotation = 0 ∨ rotation = 90 ∨ rotation = 180 ∨ rotation = 270)
    (landmarks lms2 : List LandmarkJson) (H W : ℕ) (hH : 0 < H) (hW : 0 < W)
    (hwf : wfLandmarks landmarks = true)
    (hfwd : rotateLandmarkCoordinates landmarks rotation ⟨H, W⟩
      (frameShape ⟨H, W⟩ rotation) = .ok lms2) :
    rotateLandmarkCoordinates lms2 (invRotation rotation)
      (frameShape ⟨H, W⟩ rotation) ⟨H, W⟩ = .ok landmarks := by
  have hwf2 := (wfLandmarks_iff landmarks).mp hwf
  rcases hrot with h | h
  · subst h
    rw [rotateLandmarkCoordinates, if_pos rfl] at hfwd
    have h2 : lms2 = landmarks := (Except.ok.inj hfwd).symm
    subst h2
    rw [invRotation]
    norm_num
    rw [rotateLandmarkCoordinates, if_pos rfl]
  · have hne : rotation ≠ 0 := by rcases h with h | h | h <;> omega
    have hinvne : invRotation rotation ≠ 0 := by
      rcases h with h | h | h <;> simp [invRotation, h]
    rw [rotateLandmarkCoordinates, if_neg hne,
      rotateLandmarksGo_eq_map _ _ _ _ hwf2] at hfwd
    have h2 : lms2 =
        landmarks.map (rotMapLm rotation ⟨H, W⟩ (frameShape ⟨H, W⟩ rotation)) :=
      (Except.ok.inj hfwd).symm
    subst h2
    rw [rotateLandmarkCoordinates, if_neg hinvne]
    have hwf3 : ∀ lm ∈ landmarks.map
        (rotMapLm rotation ⟨H, W⟩ (frameShape ⟨H, W⟩ rotation)),
        lm.x.isSome = true ∧ lm.y.isSome = true := by
      intro lm hlm
      obtain ⟨lm0, _, rfl⟩ := List.mem_map.mp hlm
      simp [rotMapLm]
    rw [rotateLandmarksGo_eq_map _ _ _ _ hwf3, List.map_map]
    have hmap : ∀ lm ∈ landmarks,
        (rotMapLm (invRotation rotation) (frameShape ⟨H, W⟩ rotation) ⟨H, W⟩ ∘
          rotMapLm rotation ⟨H, W⟩ (frameShape ⟨H, W⟩ rotation)) lm = lm := by
      intro lm hlm
      exact rotMapLm_inv rotation h H W hH hW lm (hwf2 lm hlm).1 (hwf2 lm hlm).2
    rw [List.map_congr_left hmap]
    simp

theorem c6_witness :
    rotateLandmarkCoordinates
        [{ x := some (2/3), y := some (1/4), visibility := some 1 }]
        (invRotation 90) (frameShape ⟨100, 50⟩ 90) ⟨100, 50⟩ =
      .ok [{ x := some (1/4), y := some (1/3), visibility := some 1 }] :=
  c6_rotation_compensation_roundtrip 90 (by norm_num)
    [{ x := some (1/4), y := some (1/3), visibility := some 1 }]
    [{ x := some (2/3), y := some (1/4), visibility := some 1 }]
    100 50 (by norm_num) (by norm_num) (by decide)
    (by norm_num [rotateLandmarkCoordinates, rotateLandmarksGo, rotMapLm,
      rotatePointPx, frameShape])

/-! ## Claim C8: hip-midpoint anchor gating -/

/-- MotionTracer.calculate_hip_midpoint: None when fewer than 25 landmarks
are present; None when either hip visibility (default 0.0) is below 0.3;
otherwise the int-truncated pixel midpoint of the two hips, None when out
of bounds; a missing coordinate key raises KeyError, caught by the
surrounding handler, which returns None. -/
def calculateHipMidpoint (landmarks : List LandmarkJson) (shape : Shape) :
    Option (ℤ × ℤ) :=
  if landmarks.length ≤ 24 then none
  else
    match landmarks[23]?, landmarks[24]? with
    | some leftHip, some rightHip =>
      let leftConfidence := leftHip.visibility.getD 0
      let rightConfidence := rightHip.visibility.getD 0
      if leftConfidence < 3/10 ∨ rightConfidence < 3/10 then none
      else
        match leftHip.x, leftHip.y, rightHip.x, rightHip.y with
        | some lx, some ly, some rx, some ry =>
          let midX := (lx + rx) / 2
          let midY := (ly + ry) / 2
          let pixelX := pytrunc (midX * (shape.width : ℚ))
          let pixelY := pytrunc (midY * (shape.height : ℚ))
          if 0 ≤ pixelX ∧ pixelX < (shape.width : ℤ) ∧
              0 ≤ pixelY ∧ pixelY < (shape.height : ℤ) then
            some (pixelX, pixelY)
          else none
        | _, _, _, _ => none
    | _, _ => none

/-- Modelled from the spec: MotionTracer has no caller under src, so the
wiring that records the per-frame anchor is missing from the source; per
the specification, the anchor point (the hip midpoint) is appended via
add_position exactly when calculate_hip_midpoint yields a point, and
otherwise no point is recorded for that frame. -/
def MotionTracer.recordAnchor (t : MotionTracer)
    (landmarks : List LandmarkJson) (shape : Shape) (frameIndex : ℤ) :
    MotionTracer :=
  match calculateHipMidpoint landmarks shape with
  | some p => t.addPosition (p.1 : ℚ) (p.2 : ℚ) frameIndex
  | none => t

/-- C8: with both hip landmarks present, an anchor point can be produced
only when both hip visibilities reach the 0.3 minimum, and when either is
below 0.3 the midpoint computation returns none and no point is recorded
(the tracer state is unchanged). -/
theorem c8_hip_confidence_gate (landmarks : List LandmarkJson) (shape : Shape)
    (hlen : 24 < landmarks.length) :
    (∀ p : ℤ × ℤ, calculateHipMidpoint landmarks shape = some p →
      3/10 ≤ visibilityAt landmarks 23 ∧ 3/10 ≤ visibilityAt landmarks 24) ∧
    (visibilityAt landmarks 23 < 3/10 ∨ visibilityAt landmarks 24 < 3/10 →
      calculateHipMidpoint landmarks shape = none ∧
      ∀ (t : MotionTracer) (frameIndex : ℤ),
        t.recordAnchor landmarks shape frameIndex = t) := by
  have hnotle : ¬ landmarks.length ≤ 24 := by omega
  have h23 : landmarks[23]? = some landmarks[23] :=
    List.getElem?_eq_getElem (by omega)
  have h24 : landmarks[24]? = some landmarks[24] :=
    List.getElem?_eq_getElem (by omega)
  have hv23 : visibilityAt landmarks 23 = landmarks[23].visibility.getD 0 := by
    rw [visibilityAt, h23]
  have hv24 : visibilityAt landmarks 24 = landmarks[24].visibility.getD 0 := by
    rw [visibilityAt, h24]
  by_cases hc : visibilityAt landmarks 23 < 3/10 ∨ visibilityAt landmarks 24 < 3/10
  · have hnone : calculateHipMidpoint landmarks shape = none := by
      rw [hv23, hv24] at hc
      simp only [calculateHipMidpoint, if_neg hnotle, h23, h24, if_pos hc]
    refine ⟨?_, fun _ => ⟨hnone, ?_⟩⟩
    · intro p hp
      rw [hnone] at hp
      exact absurd hp (by simp)
    · intro t frameIndex
      rw [MotionTracer.recordAnchor, hnone]
  · push_neg at hc
    refine ⟨fun p _ => hc, ?_⟩
    intro habs
    rcases habs with h | h
    · exact absurd h (not_lt.mpr hc.1)
    · exact absurd h (not_lt.mpr hc.2)

/-- Left hip with the given visibility, sitting at the frame center. -/
def hipLm (vis : ℚ) : LandmarkJson := ⟨some (1/2), some (1/2), some vis⟩

/-- Scenario landmark set: 23 ordinary landmarks, then a left hip with
visibility 0.2 and a right hip with visibility 0.9. -/
def scenarioHipLandmarks : List LandmarkJson :=
  [lmCenter, lmCenter, lmCenter, lmCenter, lmCenter, lmCenter, lmCenter,
   lmCenter, lmCenter, lmCenter, lmCenter, lmCenter, lmCenter, lmCenter,
   lmCenter, lmCenter, lmCenter, lmCenter, lmCenter, lmCenter, lmCenter,
   lmCenter, lmCenter, hipLm (1/5), hipLm (9/10)]

theorem c8_witness :
    calculateHipMidpoint scenarioHipLandmarks cexShape = none ∧
      (MotionTracer.init 30 2).recordAnchor scenarioHipLandmarks cexShape 0 =
        MotionTracer.init 30 2 := by
  have h := (c8_hip_confidence_gate scenarioHipLandmarks cexShape
    (by decide)).2
    (Or.inl (by norm_num [visibilityAt, scenarioHipLandmarks, hipLm]))
  exact ⟨h.1, h.2 (MotionTracer.init 30 2) 0⟩

/-! ## Full skeleton overlay and the frame-processing loop -/

/-- Drawing style dictionary fields used by the renderer. -/
structure RenderStyle where
  connectionColor : ℕ × ℕ × ℕ
  connectionThickness : ℕ
  landmarkColor : ℕ × ℕ × ℕ
  landmarkRadius : ℕ
  confidenceBased : Bool
deriving DecidableEq

/-- Default style built inside draw_skeleton_overlay (the one the frame
loop uses, since it passes no style). -/
def defaultOverlayStyle : RenderStyle :=
  { connectionColor := (255, 255, 255)
    connectionThickness := 2
    landmarkColor := (0, 255, 0)
    landmarkRadius := 4
    confidenceBased := true }

/-- Face landmark indices skipped by draw_skeleton_landmarks. -/
def faceLandmarksToSkip : List ℕ := [1, 2, 3, 4, 5, 6, 7, 8, 9, 10]

/-- Joint color: confidence bands green/yellow/red when confidence_based
is set, otherwise the style's landmark color. -/
def landmarkColorFor (style : RenderStyle) (lm : LandmarkJson) : ℕ × ℕ × ℕ :=
  if style.confidenceBased then
    let confidence := lm.visibility.getD 0
    if confidence > 4/5 then (0, 255, 0)
    else if confidence > 1/2 then (255, 255, 0)
    else (255, 0, 0)
  else style.landmarkColor

/-- draw_skeleton_landmarks over the enumerated landmark list: skip the
ten facial indices, look up coordinates (KeyError propagates), and record
a colored point for each in-bounds landmark. -/
def drawLandmarksGo (landmarks : List LandmarkJson) (shape : Shape)
    (style : RenderStyle) :
    List (ℕ × LandmarkJson) → Except PyErr (List ((ℤ × ℤ) × (ℕ × ℕ × ℕ)))
  | [] => .ok []
  | (i, lm) :: rest =>
    if i ∈ faceLandmarksToSkip then drawLandmarksGo landmarks shape style rest
    else
      match getLandmarkCoords landmarks i shape with
      | .error e => .error e
      | .ok coords =>
        match drawLandmarksGo landmarks shape style rest with
        | .error e => .error e
        | .ok pts =>
          match coords with
          | some p => .ok ((p, landmarkColorFor style lm) :: pts)
          | none => .ok pts

/-- draw_skeleton_landmarks over the whole landmark list. -/
def drawSkeletonLandmarks (landmarks : List LandmarkJson) (shape : Shape)
    (style : RenderStyle) : Except PyErr (List ((ℤ × ℤ) × (ℕ × ℕ × ℕ))) :=
  drawLandmarksGo landmarks shape style landmarks.enum

/-- Primitives drawn by one skeleton overlay on a frame. -/
structure Overlay where
  segments : List ((ℤ × ℤ) × (ℤ × ℤ))
  points : List ((ℤ × ℤ) × (ℕ × ℕ × ℕ))
deriving DecidableEq

/-- draw_skeleton_overlay: rotate the landmark coordinates when a nonzero
rotation and an original shape are given, draw connections, then joints;
any exception from those steps propagates to the caller. -/
def drawSkeletonOverlay (shape : Shape) (landmarks : List LandmarkJson)
    (style : RenderStyle) (rotation : ℤ) (origShape : Option Shape) :
    Except PyErr Overlay :=
  let lmsE :=
    match origShape with
    | some os =>
      if rotation ≠ 0 then rotateLandmarkCoordinates landmarks rotation os shape
      else .ok landmarks
    | none => .ok landmarks
  match lmsE with
  | .error e => .error e
  | .ok lms =>
    match drawSkeletonConnections lms shape with
    | .error e => .error e
    | .ok segs =>
      match drawSkeletonLandmarks lms shape style with
      | .error e => .error e
      | .ok pts => .ok { segments := segs, points := pts }

/-- Pose-frame record from the pose-data JSON: the frame_index key (absent
compares unequal to every index), the pose_detected flag (default False)
and the landmarks list (default empty). -/
structure PoseFrameJson where
  frameIndex : Option ℤ
  poseDetected : Bool
  landmarks : List LandmarkJson
deriving DecidableEq

/-- get_pose_for_frame: first record whose frame_index equals the index. -/
def getPoseForFrame (poseData : List PoseFrameJson) (frameIndex : ℤ) :
    Option PoseFrameJson :=
  poseData.find? fun pf => pf.frameIndex == some frameIndex

/-- One frame written to the output video: the source frame it came from
(the pixel payload is opaque) and the overlay drawn on it, if any. -/
structure OutFrame where
  srcFrame : ℕ
  overlay : Option Overlay
deriving DecidableEq

/-- Loop body of process_video_frames: per decoded frame, rotate it, look
up its pose record, draw the overlay when a pose was detected with a
nonempty landmark list, and write the frame; an exception from the drawing
aborts the loop, leaving only the previously written frames. Ok carries
the full output; error carries the frames written before the abort. -/
def processFramesGo (poseData : List PoseFrameJson) (rotation : ℤ)
    (origShape : Shape) :
    List ℕ → ℤ → List OutFrame → Except (List OutFrame) (List OutFrame)
  | [], _, acc => .ok acc.reverse
  | f :: rest, frameIndex, acc =>
    match getPoseForFrame poseData frameIndex with
    | some pf =>
      if pf.poseDetected = true ∧ pf.landmarks ≠ [] then
        match drawSkeletonOverlay (frameShape origShape rotation) pf.landmarks
            defaultOverlayStyle rotation (some origShape) with
        | .error _ => .error acc.reverse
        | .ok ov => processFramesGo poseData rotation origShape rest
            (frameIndex + 1) ({ srcFrame := f, overlay := some ov } :: acc)
      else processFramesGo poseData rotation origShape rest (frameIndex + 1)
        ({ srcFrame := f, overlay := none } :: acc)
    | none => processFramesGo poseData rotation origShape rest (frameIndex + 1)
        ({ srcFrame := f, overlay := none } :: acc)

/-- process_video_frames over the decoded source frames, starting at
frame index 0 with nothing written yet. -/
def processVideoFrames (srcFrames : List ℕ) (poseData : List PoseFrameJson)
    (rotation : ℤ) (origShape : Shape) :
    Except (List OutFrame) (List OutFrame) :=
  processFramesGo poseData rotation origShape srcFrames 0 []

/-- Frames present in the output file, whether or not the run completed. -/
def writtenFrames : Except (List OutFrame) (List OutFrame) → List OutFrame
  | .ok frames => frames
  | .error frames => frames

/-- Output-video properties assembled by setup_video_writer. -/
structure VideoProps where
  fps : ℤ
  width : ℕ
  height : ℕ
  rotation : ℤ
deriving DecidableEq

/-- setup_video_writer dimension logic: swap width and height exactly for
rotations 90 and 270, keep the original frame rate. -/
def setupVideoWriterProps (origWidth origHeight : ℕ) (fps : ℤ)
    (rotation : ℤ) : VideoProps :=
  if rotation = 90 ∨ rotation = 270 then
    { fps := fps, width := origHeight, height := origWidth, rotation := rotation }
  else
    { fps := fps, width := origWidth, height := origHeight, rotation := rotation }

theorem processFramesGo_length (poseData : List PoseFrameJson) (rotation : ℤ)
    (origShape : Shape) (fs : List ℕ) :
    ∀ (idx : ℤ) (acc : List OutFrame),
      (∀ out, processFramesGo poseData rotation origShape fs idx acc = .ok out →
        out.length = acc.length + fs.length) ∧
      (∀ out, processFramesGo poseData rotation origShape fs idx acc = .error out →
        out.length < acc.length + fs.length) := by
  induction fs with
  | nil =>
    intro idx acc
    constructor
    · intro out h
      simp only [processFramesGo] at h
      rw [← Except.ok.inj h]
      simp
    · intro out h
      simp only [processFramesGo] at h
      exact absurd h (by simp)
  | cons f rest ih =>
    intro idx acc
    constructor <;> intro out h <;> simp only [processFramesGo] at h
    · cases hpf : getPoseForFrame poseData idx with
      | none =>
        simp only [hpf] at h
        have := (ih (idx + 1) ({ srcFrame := f, overlay := none } :: acc)).1 out h
        simp only [List.length_cons, List.length_cons] at this ⊢
        omega
      | some pf =>
        simp only [hpf] at h
        by_cases hc : pf.poseDetected = true ∧ pf.landmarks ≠ []
        · rw [if_pos hc] at h
          cases hov : drawSkeletonOverlay (frameShape origShape rotation)
              pf.landmarks defaultOverlayStyle rotation (some origShape) with
          | error e =>
            rw [hov] at h
            exact absurd h (by simp)
          | ok ov =>
            rw [hov] at h
            have := (ih (idx + 1)
              ({ srcFrame := f, overlay := some ov } :: acc)).1 out h
            simp only [List.length_cons] at this ⊢
            omega
        · rw [if_neg hc] at h
          have := (ih (idx + 1) ({ srcFrame := f, overlay := none } :: acc)).1 out h
          simp only [List.length_cons] at this ⊢
          omega
    · cases hpf : getPoseForFrame poseData idx with
      | none =>
        simp only [hpf] at h
        have := (ih (idx + 1) ({ srcFrame := f, overlay := none } :: acc)).2 out h
        simp only [List.length_cons] at this ⊢
        omega
      | some pf =>
        simp only [hpf] at h
        by_cases hc : pf.poseDetected = true ∧ pf.landmarks ≠ []
        · rw [if_pos hc] at h
          cases hov : drawSkeletonOverlay (frameShape origShape rotation)
              pf.landmarks defaultOverlayStyle rotation (some origShape) with
          | error e =>
            rw [hov] at h
            have hout : out = acc.reverse := (Except.error.inj h).symm
            rw [hout]
            simp only [List.length_reverse, List.length_cons]
            omega
          | ok ov =>
            rw [hov] at h
            have := (ih (idx + 1)
              ({ srcFrame := f, overlay := some ov } :: acc)).2 out h
            simp only [List.length_cons] at this ⊢
            omega
        · rw [if_neg hc] at h
          have := (ih (idx + 1) ({ srcFrame := f, overlay := none } :: acc)).2 out h
          simp only [List.length_cons] at this ⊢
          omega

/-! ## Claim C2: a per-frame rendering error aborts the run -/

/-- C2 amended: a rendering exception on one frame is not caught inside
process_video_frames; the run aborts with only the previously written
frames in the output (strictly fewer than the source frame count), and
the exception propagates to generate_overlay_video, which re-raises it. -/
theorem c2_frame_error_aborts_run (srcFrames : List ℕ)
    (poseData : List PoseFrameJson) (rotation : ℤ) (origShape : Shape)
    (out : List OutFrame)
    (herr : processVideoFrames srcFrames poseData rotation origShape = .error out) :
    out.length < srcFrames.length := by
  have h := (processFramesGo_length poseData rotation origShape srcFrames 0 []).2
    out herr
  simpa using h

/-- Landmark record whose x key is missing: rendering it raises KeyError. -/
def badLandmark : LandmarkJson := ⟨none, some (1/2), some 1⟩

/-- Pose data whose record for frame 0 is structurally invalid. -/
def badPoseData : List PoseFrameJson :=
  [{ frameIndex := some 0, poseDetected := true, landmarks := [badLandmark] }]

/-- C2 counterexample: with a structurally invalid landmark record on
frame 0 of a three-frame video, the run aborts immediately: the result is
the propagated error and no frame is written, while the claim promises a
completed run with all three frames written. -/
theorem c2_counterexample :
    processVideoFrames [5, 6, 7] badPoseData 0 ⟨100, 100⟩ = .error [] ∧
      ([] : List OutFrame).length ≠ ([5, 6, 7] : List ℕ).length := by
  exact ⟨rfl, by decide⟩

theorem c2_witness : ([] : List OutFrame).length < ([5, 6, 7] : List ℕ).length :=
  c2_frame_error_aborts_run [5, 6, 7] badPoseData 0 ⟨100, 100⟩ [] rfl

/-! ## Claim C9: output frame count and dimensions -/

/-- C9 amended: when the run completes (no frame's rendering raises), the
output holds exactly one frame per source frame; the writer dimensions are
the source dimensions swapped precisely for rotations 90 and 270 (the iff
needs width and height to differ, else both sides are the same pair). The
frame-count equality fails for aborted runs; see the counterexample. -/
theorem c9_output_length_and_dimensions (srcFrames : List ℕ)
    (poseData : List PoseFrameJson) (rotation : ℤ) (origShape : Shape)
    (origWidth origHeight : ℕ) (fps : ℤ) (hwh : origWidth ≠ origHeight) :
    (∀ out, processVideoFrames srcFrames poseData rotation origShape = .ok out →
      out.length = srcFrames.length) ∧
    (((setupVideoWriterProps origWidth origHeight fps rotation).width,
      (setupVideoWriterProps origWidth origHeight fps rotation).height) =
        (origHeight, origWidth) ↔ (rotation = 90 ∨ rotation = 270)) := by
  constructor
  · intro out h
    have h2 := (processFramesGo_length poseData rotation origShape srcFrames 0 []).1
      out h
    simpa using h2
  · constructor
    · intro heq
      by_contra hrot
      rw [setupVideoWriterProps, if_neg hrot] at heq
      simp only [Prod.mk.injEq] at heq
      exact hwh heq.1
    · intro hrot
      rw [setupVideoWriterProps, if_pos hrot]

theorem c9_witness :
    processVideoFrames [3, 4] [] 90 ⟨100, 50⟩ =
        .ok [{ srcFrame := 3, overlay := none }, { srcFrame := 4, overlay := none }] ∧
      ([{ srcFrame := 3, overlay := none },
        { srcFrame := 4, overlay := none }] : List OutFrame).length =
        ([3, 4] : List ℕ).length ∧
      ((setupVideoWriterProps 50 100 30 90).width,
        (setupVideoWriterProps 50 100 30 90).height) = (100, 50) := by
  refine ⟨rfl, ?_, ?_⟩
  · exact (c9_output_length_and_dimensions [3, 4] [] 90 ⟨100, 50⟩ 50 100 30
      (by decide)).1 _ rfl
  · exact (c9_output_length_and_dimensions [3, 4] [] 90 ⟨100, 50⟩ 50 100 30
      (by decide)).2.mpr (Or.inl rfl)

/-- Landmark record whose y key is missing: rendering it raises KeyError. -/
def badLandmarkY : LandmarkJson := ⟨some (1/2), none, some 1⟩

/-- Pose data whose record for frame 0 is structurally invalid. -/
def badPoseDataY : List PoseFrameJson :=
  [{ frameIndex := some 0, poseDetected := true, landmarks := [badLandmarkY] }]

/-- C9 counterexample: a structurally invalid landmark record on frame 0
of a two-frame video aborts the run, so the output holds 0 frames, not 2:
the output frame count does not always equal the source frame count. -/
theorem c9_counterexample :
    processVideoFrames [7, 8] badPoseDataY 0 ⟨100, 100⟩ = .error [] ∧
      (writtenFrames (processVideoFrames [7, 8] badPoseDataY 0 ⟨100, 100⟩)).length ≠
        ([7, 8] : List ℕ).length := by
  exact ⟨rfl, by decide⟩

/-! ## Orientation resolver (get_video_rotation and the two heuristics) -/

/-- Accumulated per-rotation scores for the four candidate angles. -/
structure Orientations where
  s0 : ℚ
  s90 : ℚ
  s180 : ℚ
  s270 : ℚ
deriving DecidableEq

/-- Abstract video handle for the orientation resolver: the metadata
rotation read via PyAV (which may raise), the number of frames the
sampling loop can decode (0 for an unreadable video), and the content
score each heuristic variant assigns to sampled frame i under a candidate
angle (which may raise, e.g. on a decode error). The scoring arithmetic
itself — Canny edge densities, aspect and edge-direction bonuses — is
opaque pixel processing and enters the model as these oracle functions;
the control flow around them is translated from the source. -/
structure VideoEnv where
  metaRotation : Except PyErr ℤ
  numFrames : ℕ
  scoreIphone : ℕ → ℤ → Except PyErr ℚ
  scoreGeneric : ℕ → ℤ → Except PyErr ℚ

/-- Add one sampled frame's scores for the four angles, in source order;
the first raising score aborts the accumulation. -/
def addFrameScores (score : ℕ → ℤ → Except PyErr ℚ) (i : ℕ)
    (o : Orientations) : Except PyErr Orientations :=
  match score i 0 with
  | .error e => .error e
  | .ok a0 =>
    match score i 90 with
    | .error e => .error e
    | .ok a90 =>
      match score i 180 with
      | .error e => .error e
      | .ok a180 =>
        match score i 270 with
        | .error e => .error e
        | .ok a270 =>
          .ok { s0 := o.s0 + a0, s90 := o.s90 + a90,
                s180 := o.s180 + a180, s270 := o.s270 + a270 }

/-- Accumulate scores over the listed frames. -/
def sumScoresFrom (score : ℕ → ℤ → Except PyErr ℚ) :
    List ℕ → Orientations → Except PyErr Orientations
  | [], o => .ok o
  | i :: rest, o =>
    match addFrameScores score i o with
    | .error e => .error e
    | .ok o2 => sumScoresFrom score rest o2

/-- Sum the scores over the sampled frames: the loop reads 3 frames and
breaks early when the video has fewer, starting from all-zero sums. -/
def sumScores (score : ℕ → ℤ → Except PyErr ℚ) (numFrames : ℕ) :
    Except PyErr Orientations :=
  sumScoresFrom score (List.range (min 3 numFrames)) ⟨0, 0, 0, 0⟩

/-- Highest accumulated score. -/
def maxScore (o : Orientations) : ℚ := max (max o.s0 o.s90) (max o.s180 o.s270)

/-- Python max over the dict iterated in insertion order 0, 90, 180, 270
replaces the best key only on a strictly greater value, so it returns the
first angle attaining the maximum. -/
def bestOrientation (o : Orientations) : ℤ :=
  if o.s0 = maxScore o then 0
  else if o.s90 = maxScore o then 90
  else if o.s180 = maxScore o then 180
  else 270

/-- Margin rule shared by both heuristics: return the best angle only
when its score exceeds the 0-degree score by the relative margin,
otherwise 0. -/
def scoreDecision (margin : ℚ) (o : Orientations) : ℤ :=
  if maxScore o > o.s0 * margin then bestOrientation o else 0

/-- Body of a heuristic detector before its exception handler. -/
def detectBody (margin : ℚ) (score : ℕ → ℤ → Except PyErr ℚ)
    (numFrames : ℕ) : Except PyErr ℤ :=
  match sumScores score numFrames with
  | .error e => .error e
  | .ok o => .ok (scoreDecision margin o)

/-- A Python try/except: run the body; on an exception run the handler. -/
def pyTry {α : Type} (body : Except PyErr α) (fallback : Except PyErr α) :
    Except PyErr α :=
  match body with
  | .ok a => .ok a
  | .error _ => fallback

/-- detect_iphone_portrait_rotation: margin 1.5, handler returns 0. -/
def detectIphonePortraitRotation (env : VideoEnv) : Except PyErr ℤ :=
  pyTry (detectBody (3/2) env.scoreIphone env.numFrames) (.ok 0)

/-- detect_video_orientation_heuristic: margin 1.3, handler returns 0. -/
def detectVideoOrientationHeuristic (env : VideoEnv) : Except PyErr ℤ :=
  pyTry (detectBody (13/10) env.scoreGeneric env.numFrames) (.ok 0)

/-- Body of get_video_rotation before its exception handler: read the
metadata rotation (may raise), normalize modulo 360 discarding
non-canonical angles, and when it is 0 chain the iPhone-specific detector
and then the generic heuristic. -/
def getVideoRotationBody (env : VideoEnv) : Except PyErr ℤ :=
  match env.metaRotation with
  | .error e => .error e
  | .ok raw =>
    let r1 := raw % 360
    let r2 := if r1 = 0 ∨ r1 = 90 ∨ r1 = 180 ∨ r1 = 270 then r1 else 0
    if r2 = 0 then
      match detectIphonePortraitRotation env with
      | .error e => .error e
      | .ok ir =>
        if ir ≠ 0 then .ok ir
        else detectVideoOrientationHeuristic env
    else .ok r2

/-- get_video_rotation: the body with its handler, which falls back to
the generic heuristic. -/
def getVideoRotation (env : VideoEnv) : Except PyErr ℤ :=
  pyTry (getVideoRotationBody env) (detectVideoOrientationHeuristic env)

theorem pyTry_ok_fallback {α : Type} (body : Except PyErr α) (a : α) :
    ∃ r, pyTry body (.ok a) = .ok r := by
  cases body with
  | ok v => exact ⟨v, rfl⟩
  | error e => exact ⟨a, rfl⟩

theorem detectHeuristic_zero_frames (margin : ℚ)
    (score : ℕ → ℤ → Except PyErr ℚ) :
    pyTry (detectBody margin score 0) (.ok 0) = .ok 0 := by
  have hss : sumScores score 0 = .ok ⟨0, 0, 0, 0⟩ := rfl
  rw [detectBody, hss]
  show Except.ok (scoreDecision margin ⟨0, 0, 0, 0⟩) = .ok 0
  norm_num [scoreDecision, maxScore, bestOrientation]

/-! ## Claim C4: the resolver never raises and falls back to 0 -/

/-- C4: every exception path of get_video_rotation ends in a caught
handler, so the resolver always returns a rotation; and when the metadata
read raises and the video yields no decodable frames (unreadable video),
the heuristic fallback scores nothing and the result is rotation 0. -/
theorem c4_resolver_total_fallback_zero (env : VideoEnv) :
    (∃ r, getVideoRotation env = .ok r) ∧
    (∀ e, env.metaRotation = .error e → env.numFrames = 0 →
      getVideoRotation env = .ok 0) := by
  constructor
  · cases hb : getVideoRotationBody env with
    | ok r =>
      refine ⟨r, ?_⟩
      rw [getVideoRotation, hb]
      rfl
    | error e =>
      obtain ⟨r, hr⟩ := pyTry_ok_fallback
        (detectBody (13/10) env.scoreGeneric env.numFrames) 0
      refine ⟨r, ?_⟩
      rw [getVideoRotation, hb]
      exact hr
  · intro e hmeta h0
    have hb : getVideoRotationBody env = .error e := by
      rw [getVideoRotationBody, hmeta]
    rw [getVideoRotation, hb]
    show detectVideoOrientationHeuristic env = .ok 0
    rw [detectVideoOrientationHeuristic, h0]
    exact detectHeuristic_zero_frames (13/10) env.scoreGeneric

/-- Video handle that can be neither probed for metadata nor decoded. -/
def unreadableEnv : VideoEnv :=
  { metaRotation := .error .generic
    numFrames := 0
    scoreIphone := fun _ _ => .error .generic
    scoreGeneric := fun _ _ => .error .generic }

theorem c4_witness : getVideoRotation unreadableEnv = .ok 0 :=
  (c4_resolver_total_fallback_zero unreadableEnv).2 .generic rfl rfl

/-! ## Claim C7: the relative-margin decision rule -/

theorem detect_margin_only_if (margin : ℚ) (score : ℕ → ℤ → Except PyErr ℚ)
    (numFrames : ℕ) (r : ℤ)
    (hr : pyTry (detectBody margin score numFrames) (.ok 0) = .ok r)
    (hne : r ≠ 0) :
    ∃ o, sumScores score numFrames = .ok o ∧
      r = bestOrientation o ∧ maxScore o > o.s0 * margin := by
  cases hss : sumScores score numFrames with
  | error e =>
    simp only [pyTry, detectBody, hss] at hr
    exact absurd (Except.ok.inj hr).symm hne
  | ok o =>
    simp only [pyTry, detectBody, hss] at hr
    have hro : r = scoreDecision margin o := (Except.ok.inj hr).symm
    rw [scoreDecision] at hro
    by_cases hcond : maxScore o > o.s0 * margin
    · rw [if_pos hcond] at hro
      exact ⟨o, rfl, hro, hcond⟩
    · rw [if_neg hcond] at hro
      exact absurd hro hne

/-- Environment of the scenario in the claim: metadata reports 0, one
decodable frame, iPhone-variant scores 100 for angle 0 and 200 for
angle 90. -/
def scenarioEnv : VideoEnv :=
  { metaRotation := .ok 0
    numFrames := 1
    scoreIphone := fun _ angle =>
      .ok (if angle = 0 then 100 else if angle = 90 then 200 else 0)
    scoreGeneric := fun _ _ => .ok 0 }

theorem scenarioEnv_resolves_90 : getVideoRotation scenarioEnv = .ok 90 := by
  have hsum : sumScores scenarioEnv.scoreIphone scenarioEnv.numFrames =
      .ok ⟨100, 200, 0, 0⟩ := by
    have hrange : List.range (min 3 1) = [0] := rfl
    show sumScoresFrom scenarioEnv.scoreIphone
      (List.range (min 3 1)) ⟨0, 0, 0, 0⟩ = .ok ⟨100, 200, 0, 0⟩
    rw [hrange]
    norm_num [sumScoresFrom, addFrameScores, scenarioEnv]
  have hdec : detectIphonePortraitRotation scenarioEnv = .ok 90 := by
    rw [detectIphonePortraitRotation, detectBody, hsum]
    show Except.ok (scoreDecision (3/2) ⟨100, 200, 0, 0⟩) = .ok 90
    norm_num [scoreDecision, maxScore, bestOrientation]
  have hm : scenarioEnv.metaRotation = .ok 0 := rfl
  have hbody : getVideoRotationBody scenarioEnv = .ok 90 := by
    simp only [getVideoRotationBody, hm, hdec]
    norm_num
  rw [getVideoRotation, hbody]
  rfl

/-- C7: with metadata rotation 0, each heuristic variant returns a
nonzero angle only when the accumulated maximum score strictly exceeds
the 0-degree score times its margin (1.5 for the iPhone variant, 1.3 for
the generic variant); a nonzero iPhone result is the resolved rotation,
an inconclusive iPhone result defers to the generic variant, both
inconclusive resolves 0; and the concrete scenario with scores 0:100 and
90:200 resolves to rotation 90. -/
theorem c7_margin_rule_and_scenario (env : VideoEnv)
    (hmeta : env.metaRotation = .ok 0) :
    (∀ ir, detectIphonePortraitRotation env = .ok ir → ir ≠ 0 →
      getVideoRotation env = .ok ir ∧
      ∃ o, sumScores env.scoreIphone env.numFrames = .ok o ∧
        ir = bestOrientation o ∧ maxScore o > o.s0 * (3/2)) ∧
    (detectIphonePortraitRotation env = .ok 0 →
      getVideoRotation env = detectVideoOrientationHeuristic env) ∧
    (∀ gr, detectVideoOrientationHeuristic env = .ok gr → gr ≠ 0 →
      ∃ o, sumScores env.scoreGeneric env.numFrames = .ok o ∧
        gr = bestOrientation o ∧ maxScore o > o.s0 * (13/10)) ∧
    (detectIphonePortraitRotation env = .ok 0 →
      detectVideoOrientationHeuristic env = .ok 0 →
      getVideoRotation env = .ok 0) ∧
    getVideoRotation scenarioEnv = .ok 90 := by
  have hbody : ∀ ir, detectIphonePortraitRotation env = .ok ir →
      getVideoRotationBody env =
        (if ir ≠ 0 then .ok ir else detectVideoOrientationHeuristic env) := by
    intro ir hir
    simp only [getVideoRotationBody, hmeta, hir]
    norm_num
  refine ⟨?_, ?_, ?_, ?_, scenarioEnv_resolves_90⟩
  · intro ir hir hne
    have hb : getVideoRotationBody env = .ok ir := by
      rw [hbody ir hir, if_pos hne]
    constructor
    · rw [getVideoRotation, hb]
      rfl
    · exact detect_margin_only_if (3/2) env.scoreIphone env.numFrames ir hir hne
  · intro h0
    have hb : getVideoRotationBody env = detectVideoOrientationHeuristic env := by
      rw [hbody 0 h0]
      simp
    obtain ⟨gr, hgr⟩ := pyTry_ok_fallback
      (detectBody (13/10) env.scoreGeneric env.numFrames) 0
    have hgr2 : detectVideoOrientationHeuristic env = .ok gr := hgr
    rw [getVideoRotation, hb, hgr2]
    rfl
  · intro gr hgr hne
    exact detect_margin_only_if (13/10) env.scoreGeneric env.numFrames gr hgr hne
  · intro h0 hg0
    have hb : getVideoRotationBody env = detectVideoOrientationHeuristic env := by
      rw [hbody 0 h0]
      simp
    rw [getVideoRotation, hb, hg0]
    rfl

theorem c7_witness : getVideoRotation scenarioEnv = .ok (90 : ℤ) :=
  (c7_margin_rule_and_scenario scenarioEnv rfl).2.2.2.2
